import Mathlib

/-!
Verification development for the infinitum-hostel desk/scanner pairing core.

The backend session registry is embedded from
`src/backend/controllers/desk.controller.ts`; the scanner client from
`src/frontend/src/pages/Scanner.tsx`. Timestamps (JS `Date.now()`
milliseconds) are `Nat`; the in-memory `Map<string, DeskSession>` is an
association list with JS `Map` semantics (set replaces in place or
appends, delete filters, get takes the first binding).
-/

namespace Infinitum

/-- One desk session record, from the `DeskSession` interface in
`desk.controller.ts`. -/
structure DeskSession where
  deskId : String
  signature : String
  createdAt : Nat
  expiresAt : Nat
deriving Repr, DecidableEq

/-- The in-memory session store `deskSessions : Map<string, DeskSession>`. -/
abbrev SessionTable := List (String × DeskSession)

/-- `deskSessions.get(deskId)`. -/
def mapGet (t : SessionTable) (k : String) : Option DeskSession :=
  t.lookup k

/-- `deskSessions.delete(deskId)`. -/
def mapDelete (t : SessionTable) (k : String) : SessionTable :=
  t.filter (fun p => p.1 != k)

/-- `deskSessions.set(deskId, session)`: replaces the existing binding in
place, or appends a new one (JS `Map.set` semantics). -/
def mapSet (t : SessionTable) (k : String) (v : DeskSession) : SessionTable :=
  if t.any (fun p => p.1 == k) then
    t.map (fun p => if p.1 == k then (k, v) else p)
  else
    t ++ [(k, v)]

/-- `SESSION_EXPIRY = 30 * 60 * 1000` (30 minutes in ms). -/
def SESSION_EXPIRY : Nat := 30 * 60 * 1000

/-- The interval of the periodic cleanup `setInterval(..., 60000)`. -/
def SWEEP_INTERVAL : Nat := 60000

/-- The body of the periodic cleanup in `desk.controller.ts` lines 19-26:
delete every entry with `session.expiresAt < now`. -/
def sweepSessions (t : SessionTable) (now : Nat) : SessionTable :=
  t.filter (fun p => !decide (p.2.expiresAt < now))

/-- `validateDeskSession(deskId, signature)`: returns the boolean result
and the session table after the call (lazy eviction on expiry). -/
def validateDeskSession (t : SessionTable) (now : Nat)
    (deskId signature : String) : Bool × SessionTable :=
  match mapGet t deskId with
  | none => (false, t)
  | some session =>
    if session.expiresAt < now then
      (false, mapDelete t deskId)
    else
      (session.signature == signature, t)

/-- The HTTP response produced by `refreshDeskSession` (status code plus
the JSON body fields it sets). -/
structure RefreshResponse where
  status : Nat
  success : Bool
  message : String
  expiresIn : Option Nat
deriving Repr, DecidableEq

/-- `refreshDeskSession(req, res)`: validates, answers 401 on failure,
otherwise resets `expiresAt = Date.now() + SESSION_EXPIRY` and answers 200
with the new `expiresIn`. Returns the response and the table afterwards. -/
def refreshDeskSession (t : SessionTable) (now : Nat)
    (deskId signature : String) : RefreshResponse × SessionTable :=
  let v := validateDeskSession t now deskId signature
  if !v.1 then
    (⟨401, false, "Invalid or expired desk session", none⟩, v.2)
  else
    let t2 :=
      match mapGet v.2 deskId with
      | some session => mapSet v.2 deskId { session with expiresAt := now + SESSION_EXPIRY }
      | none => v.2
    (⟨200, true, "Session refreshed", some SESSION_EXPIRY⟩, t2)

/-- `n.toString(16)` digit for one nibble, lowercase as Node's
`Buffer.toString('hex')` produces. -/
def hexDigit (n : Nat) : Char :=
  if n < 10 then Char.ofNat (48 + n) else Char.ofNat (87 + n)

/-- `Buffer.toString('hex')`: two lowercase hex characters per byte. -/
def bytesToHex : List Nat → List Char
  | [] => []
  | b :: bs => hexDigit (b / 16) :: hexDigit (b % 16) :: bytesToHex bs

/-- The HTTP response produced by `createDeskSession` on success. -/
structure CreateResponse where
  status : Nat
  success : Bool
  deskId : String
  signature : String
  expiresIn : Nat
deriving Repr, DecidableEq

/-- `createDeskSession(req, res)`: the random bytes drawn by the two
`crypto.randomBytes` calls (16 for the id, 32 for the secret) are passed
in explicitly; the function hex-encodes them, stores the record and
answers 200 with id, secret and expiry interval. -/
def createDeskSession (t : SessionTable) (idBytes sigBytes : List Nat)
    (now : Nat) : CreateResponse × SessionTable :=
  let deskId := String.mk (bytesToHex idBytes)
  let signature := String.mk (bytesToHex sigBytes)
  let session : DeskSession :=
    { deskId := deskId, signature := signature
      createdAt := now, expiresAt := now + SESSION_EXPIRY }
  let t2 := mapSet t deskId session
  (⟨200, true, deskId, signature, SESSION_EXPIRY⟩, t2)

/-- Modelled from the spec: the Scan Handshake State Machine lives in
`src/backend/utils/socket.ts`, which is not included under `src/`; the
states follow spec section 4.3 (`awaiting-ack` carries the in-flight
participant id so that `scan-acknowledged` can echo it, per section 6). -/
inductive HandshakeState where
  | idle
  | awaitingAck (pid : String)
  | paused
deriving Repr, DecidableEq

/-- Messages the relay forwards to the desk connection. -/
inductive DeskMsg where
  | scanReceived (pid : String)
deriving Repr, DecidableEq

/-- Messages the relay broadcasts to the scanners of the session. -/
inductive ScannerMsg where
  | scanAcknowledged (pid : String)
  | resumeScanning
deriving Repr, DecidableEq

/-- Events the relay hands to the handshake state machine. -/
inductive RelayEvent where
  | scanParticipant (pid : String)
  | ackScan
  | resume
deriving Repr, DecidableEq

/-- Result of one handshake step: next state, messages forwarded to the
desk, messages broadcast to the scanners. -/
structure StepResult where
  state : HandshakeState
  toDesk : List DeskMsg
  toScanners : List ScannerMsg
deriving Repr, DecidableEq

/-- Modelled from the spec: the transition table of section 4.3. A
transition the spec leaves undefined (`idle + ack-scan`, `idle + resume`,
`awaiting-ack + resume`, `paused + ack-scan`) is a silent drop. -/
def handshakeStep : HandshakeState → RelayEvent → StepResult
  | .idle, .scanParticipant pid =>
    if pid = "" then ⟨.idle, [], []⟩
    else ⟨.awaitingAck pid, [.scanReceived pid], []⟩
  | .idle, .ackScan => ⟨.idle, [], []⟩
  | .idle, .resume => ⟨.idle, [], []⟩
  | .awaitingAck p, .scanParticipant _ => ⟨.awaitingAck p, [], []⟩
  | .awaitingAck p, .ackScan => ⟨.paused, [], [.scanAcknowledged p]⟩
  | .awaitingAck p, .resume => ⟨.awaitingAck p, [], []⟩
  | .paused, .scanParticipant _ => ⟨.paused, [], []⟩
  | .paused, .ackScan => ⟨.paused, [], []⟩
  | .paused, .resume => ⟨.idle, [], [.resumeScanning]⟩

/-- Run a list of relay events through the handshake, collecting every
message forwarded to the desk along the way. -/
def runHandshake : HandshakeState → List RelayEvent → HandshakeState × List DeskMsg
  | s, [] => (s, [])
  | s, e :: es =>
    let r := handshakeStep s e
    let rest := runHandshake r.state es
    (rest.1, r.toDesk ++ rest.2)

/-- The scanner client's real-time state, from the refs in
`Scanner.tsx`: `connectedRef`, `pausedRef`, `lastScanTsRef`,
`scannerRef` (camera handle: on/off) and `socketRef` (present or null). -/
structure ScannerState where
  connectedR : Bool
  pausedR : Bool
  lastScanTs : Nat
  cameraOn : Bool
  socketPresent : Bool
  lastScanned : Option String
deriving Repr, DecidableEq

/-- A `scan-participant` payload emitted by the client:
`socket.emit(..., { uniqueId })`. -/
structure EmitMsg where
  uniqueId : String
deriving Repr, DecidableEq

/-- Outcome of `JSON.parse(decodedText)` in `onScanSuccess`: either the
parse succeeded, yielding an object with a `type` field and a `uniqueId`
field (empty string standing for a missing/falsy `uniqueId`), or it threw
and the plain-text fallback runs. -/
inductive Decoded where
  | json (ty : String) (uniqueId : String)
  | plain (text : String)
deriving Repr, DecidableEq

/-- JS `String.prototype.trim()`: strip leading and trailing whitespace.
Implemented structurally over the character list so that it evaluates. -/
def jsTrim (s : String) : String :=
  String.mk
    (((s.data.dropWhile Char.isWhitespace).reverse.dropWhile
      Char.isWhitespace).reverse)

/-- The `scan-acknowledged` socket handler in `Scanner.tsx`: records the
id, sets the paused ref and flag, and stops the camera. -/
def handleScanAcknowledged (st : ScannerState) (uniqueId : String) : ScannerState :=
  { st with lastScanned := some uniqueId, pausedR := true, cameraOn := false }

/-- The `resume-scanning` socket handler in `Scanner.tsx`: clears the
paused ref and flag and restarts the camera. -/
def handleResumeScanning (st : ScannerState) : ScannerState :=
  { st with pausedR := false, cameraOn := true }

/-- `onScanSuccess(decodedText)` in `Scanner.tsx`: 1500 ms debounce, then
the paused guard, then the connected/socket guard, then parse and emit.
Returns the new state and the emitted `scan-participant` messages. -/
def onScanSuccess (st : ScannerState) (d : Decoded) (now : Nat) :
    ScannerState × List EmitMsg :=
  if now - st.lastScanTs < 1500 then (st, [])
  else
    let st1 := { st with lastScanTs := now }
    if st1.pausedR then (st1, [])
    else if !st1.connectedR || !st1.socketPresent then (st1, [])
    else
      match d with
      | .json ty uid =>
        if ty != "PARTICIPANT" || uid == "" then (st1, [])
        else (st1, [⟨uid⟩])
      | .plain text => (st1, [⟨jsTrim text⟩])

/-- Run a list of camera scan results through `onScanSuccess`, collecting
every emitted message. -/
def runScans : ScannerState → List (Decoded × Nat) → ScannerState × List EmitMsg
  | st, [] => (st, [])
  | st, (d, now) :: rest =>
    let r := onScanSuccess st d now
    let rec' := runScans r.1 rest
    (rec'.1, r.2 ++ rec'.2)

/-- The manual-input Send button's `onClick` handler in `Scanner.tsx`:
no-op on empty trimmed input, otherwise `socketRef.current?.emit`. -/
def manualSend (st : ScannerState) (input : String) : List EmitMsg :=
  if jsTrim input = "" then []
  else if st.socketPresent then [⟨jsTrim input⟩]
  else []

/-! ### Helper lemmas about the association-list map -/

theorem mapGet_mapDelete_self (t : SessionTable) (k : String) :
    mapGet (mapDelete t k) k = none := by
  induction t with
  | nil => rfl
  | cons p ps ih =>
    obtain ⟨a, b⟩ := p
    by_cases h : a = k
    · simpa [mapDelete, List.filter_cons, h] using ih
    · simpa [mapDelete, mapGet, List.filter_cons, List.lookup_cons,
        bne_iff_ne, h, beq_eq_false_iff_ne.mpr (Ne.symm h)] using ih

theorem mapGet_mapDelete_ne (t : SessionTable) (k k' : String) (h : k' ≠ k) :
    mapGet (mapDelete t k) k' = mapGet t k' := by
  induction t with
  | nil => rfl
  | cons p ps ih =>
    obtain ⟨a, b⟩ := p
    by_cases hp : a = k
    · have hk' : ¬ k' = a := fun hx => h (hx.trans hp)
      simpa [mapDelete, mapGet, List.filter_cons, List.lookup_cons, hp,
        beq_eq_false_iff_ne.mpr hk', beq_eq_false_iff_ne.mpr h] using ih
    · by_cases hp' : k' = a
      · simp [mapDelete, mapGet, List.filter_cons, List.lookup_cons, hp,
          bne_iff_ne, hp']
      · simpa [mapDelete, mapGet, List.filter_cons, List.lookup_cons, hp,
          bne_iff_ne, beq_eq_false_iff_ne.mpr hp'] using ih

theorem lookup_mapReplace_self (ps : List (String × DeskSession)) (k : String)
    (v : DeskSession) (hany : ps.any (fun p => p.1 == k)) :
    List.lookup k (ps.map (fun p => if p.1 == k then (k, v) else p)) = some v := by
  induction ps with
  | nil => simp at hany
  | cons p ps ih =>
    obtain ⟨a, b⟩ := p
    by_cases hp : a = k
    · simp [List.lookup_cons, hp]
    · have hps : ps.any (fun p => p.1 == k) := by
        simpa [List.any_cons, hp] using hany
      simpa [List.lookup_cons, hp,
        beq_eq_false_iff_ne.mpr (Ne.symm hp)] using ih hps

theorem lookup_append_single (ps : List (String × DeskSession)) (k : String)
    (v : DeskSession) (hnone : ¬ ps.any (fun p => p.1 == k)) :
    List.lookup k (ps ++ [(k, v)]) = some v := by
  induction ps with
  | nil => simp [List.lookup_cons]
  | cons p ps ih =>
    obtain ⟨a, b⟩ := p
    have hp : ¬ a = k := by
      intro h; exact hnone (by simp [List.any_cons, h])
    have hps : ¬ ps.any (fun p => p.1 == k) := by
      intro h; exact hnone (by simp [List.any_cons, h])
    simpa [List.lookup_cons,
      beq_eq_false_iff_ne.mpr (Ne.symm hp)] using ih hps

theorem mapGet_mapSet_self (t : SessionTable) (k : String) (v : DeskSession) :
    mapGet (mapSet t k v) k = some v := by
  unfold mapSet
  by_cases hany : t.any (fun p => p.1 == k)
  · simpa [mapGet, hany] using lookup_mapReplace_self t k v hany
  · simpa [mapGet, hany] using lookup_append_single t k v hany

theorem lookup_mapReplace_ne (ps : List (String × DeskSession)) (k k' : String)
    (v : DeskSession) (h : k' ≠ k) :
    List.lookup k' (ps.map (fun p => if p.1 == k then (k, v) else p)) =
      List.lookup k' ps := by
  induction ps with
  | nil => rfl
  | cons p ps ih =>
    obtain ⟨a, b⟩ := p
    by_cases hp : a = k
    · have hk' : ¬ k' = a := fun hx => h (hx.trans hp)
      simpa [List.lookup_cons, hp, beq_eq_false_iff_ne.mpr h,
        beq_eq_false_iff_ne.mpr hk'] using ih
    · by_cases hp' : k' = a
      · simp [List.lookup_cons, hp, hp']
      · simpa [List.lookup_cons, hp,
          beq_eq_false_iff_ne.mpr hp'] using ih

theorem lookup_append_single_ne (ps : List (String × DeskSession))
    (k k' : String) (v : DeskSession) (h : k' ≠ k) :
    List.lookup k' (ps ++ [(k, v)]) = List.lookup k' ps := by
  induction ps with
  | nil => simp [List.lookup_cons, beq_eq_false_iff_ne.mpr h]
  | cons p ps ih =>
    obtain ⟨a, b⟩ := p
    by_cases hp' : k' = a
    · simp [List.lookup_cons, hp']
    · simpa [List.lookup_cons, beq_eq_false_iff_ne.mpr hp'] using ih

theorem mapGet_mapSet_ne (t : SessionTable) (k k' : String) (v : DeskSession)
    (h : k' ≠ k) : mapGet (mapSet t k v) k' = mapGet t k' := by
  unfold mapSet
  by_cases hany : t.any (fun p => p.1 == k)
  · simpa [mapGet, hany] using lookup_mapReplace_ne t k k' v h
  · simpa [mapGet, hany] using lookup_append_single_ne t k k' v h

/-- The sixteen characters Node's lowercase hex encoding can produce. -/
def hexChars : List Char := "0123456789abcdef".data

theorem hexDigit_mem_hexChars (n : Nat) (h : n < 16) :
    hexDigit n ∈ hexChars := by
  interval_cases n <;> decide

theorem bytesToHex_length (bs : List Nat) :
    (bytesToHex bs).length = 2 * bs.length := by
  induction bs with
  | nil => rfl
  | cons b bs ih => simp [bytesToHex, ih]; omega

theorem bytesToHex_mem_hexChars (bs : List Nat) (hb : ∀ b ∈ bs, b < 256) :
    ∀ c ∈ bytesToHex bs, c ∈ hexChars := by
  induction bs with
  | nil => intro c hc; simp [bytesToHex] at hc
  | cons b bs ih =>
    intro c hc
    have hblt : b < 256 := hb b (by simp)
    have hdiv : b / 16 < 16 := by omega
    have hmod : b % 16 < 16 := Nat.mod_lt _ (by omega)
    simp only [bytesToHex, List.mem_cons] at hc
    rcases hc with h1 | h2 | h3
    · exact h1 ▸ hexDigit_mem_hexChars _ hdiv
    · exact h2 ▸ hexDigit_mem_hexChars _ hmod
    · exact ih (fun x hx => hb x (by simp [hx])) c h3

/-- While the paused ref is set, any run of camera scans emits nothing and
leaves the ref set. -/
theorem runScans_paused (st : ScannerState) (scans : List (Decoded × Nat))
    (h : st.pausedR = true) :
    (runScans st scans).2 = [] ∧ (runScans st scans).1.pausedR = true := by
  induction scans generalizing st with
  | nil => exact ⟨rfl, h⟩
  | cons dn rest ih =>
    obtain ⟨d, now⟩ := dn
    by_cases hdb : now - st.lastScanTs < 1500
    · have hstep : onScanSuccess st d now = (st, []) := by
        simp [onScanSuccess, hdb]
      simpa [runScans, hstep] using ih st h
    · have hstep : onScanSuccess st d now =
          ({ st with lastScanTs := now }, []) := by
        simp [onScanSuccess, hdb, h]
      simpa [runScans, hstep] using ih { st with lastScanTs := now } h

/-! ### Claim theorems -/

/-- C1: `validateDeskSession` returns false if no session with the deskId
exists; returns false and removes the record if it is expired, regardless
of the signature; returns false on an unexpired session whose stored
signature differs; and returns true (leaving the table unchanged)
otherwise.  In particular, once the current time exceeds `expiresAt` the
result is false regardless of prior validity. -/
theorem validateDeskSession_spec (t : SessionTable) (now : Nat)
    (deskId signature : String) :
    (mapGet t deskId = none →
      validateDeskSession t now deskId signature = (false, t)) ∧
    (∀ s, mapGet t deskId = some s → s.expiresAt < now →
      (validateDeskSession t now deskId signature).1 = false ∧
      mapGet (validateDeskSession t now deskId signature).2 deskId = none) ∧
    (∀ s, mapGet t deskId = some s → ¬ s.expiresAt < now →
      s.signature ≠ signature →
      validateDeskSession t now deskId signature = (false, t)) ∧
    (∀ s, mapGet t deskId = some s → ¬ s.expiresAt < now →
      s.signature = signature →
      validateDeskSession t now deskId signature = (true, t)) := by
  refine ⟨?_, ?_, ?_, ?_⟩
  · intro h; simp [validateDeskSession, h]
  · intro s hs hexp
    refine ⟨by simp [validateDeskSession, hs, hexp], ?_⟩
    simp only [validateDeskSession, hs, hexp, if_true]
    exact mapGet_mapDelete_self t deskId
  · intro s hs hexp hsig
    simp [validateDeskSession, hs, hexp, beq_eq_false_iff_ne.mpr hsig]
  · intro s hs hexp hsig
    simp [validateDeskSession, hs, hexp, hsig]

/-- Witness for C1 at concrete inputs: an absent deskId, and an expired
session that gets evicted. -/
theorem validateDeskSession_spec_witness :
    validateDeskSession [] 0 "d" "s" = (false, []) ∧
    ((validateDeskSession [("d", ⟨"d", "sec", 0, 3⟩)] 10 "d" "sec").1 = false ∧
      mapGet (validateDeskSession [("d", ⟨"d", "sec", 0, 3⟩)] 10 "d" "sec").2
        "d" = none) := by
  refine ⟨(validateDeskSession_spec [] 0 "d" "s").1 rfl, ?_⟩
  exact (validateDeskSession_spec [("d", ⟨"d", "sec", 0, 3⟩)] 10
    "d" "sec").2.1 ⟨"d", "sec", 0, 3⟩ rfl (by decide)

/-- C2: in the `awaiting-ack` state, every further `scan-participant`
event (any participant id) is dropped: no forward to the desk is
produced and the session state (including the in-flight id) is
unchanged. -/
theorem awaitingAck_drops_scans (p : String) (evs : List RelayEvent)
    (h : ∀ e ∈ evs, ∃ pid, e = RelayEvent.scanParticipant pid) :
    runHandshake (.awaitingAck p) evs = (.awaitingAck p, []) := by
  induction evs with
  | nil => rfl
  | cons e es ih =>
    obtain ⟨pid, hpid⟩ := h e (by simp)
    subst hpid
    have hrest := ih (fun x hx => h x (by simp [hx]))
    simp [runHandshake, handshakeStep, hrest]

/-- Witness for C2: two concrete scans against an awaiting-ack session. -/
theorem awaitingAck_drops_scans_witness :
    runHandshake (.awaitingAck "P1")
      [RelayEvent.scanParticipant "P2", RelayEvent.scanParticipant "P3"] =
      (.awaitingAck "P1", []) := by
  apply awaitingAck_drops_scans
  intro e he
  simp only [List.mem_cons, List.not_mem_nil, or_false] at he
  rcases he with h | h
  · exact ⟨"P2", h⟩
  · exact ⟨"P3", h⟩

/-- C3: a successful refresh only rewrites the stored record's
`expiresAt` to `now + SESSION_EXPIRY` (the record-update syntax keeps
`deskId`, `signature` and `createdAt` of the old record), and the binding
of every other key in the table is untouched. -/
theorem refreshDeskSession_frame (t : SessionTable) (now : Nat)
    (deskId signature : String) (s : DeskSession)
    (hget : mapGet t deskId = some s)
    (hexp : ¬ s.expiresAt < now)
    (hsig : s.signature = signature) :
    mapGet (refreshDeskSession t now deskId signature).2 deskId =
      some { s with expiresAt := now + SESSION_EXPIRY } ∧
    (∀ k, k ≠ deskId →
      mapGet (refreshDeskSession t now deskId signature).2 k = mapGet t k) := by
  have hval : validateDeskSession t now deskId signature = (true, t) := by
    simp [validateDeskSession, hget, hexp, hsig]
  constructor
  · simp only [refreshDeskSession, hval, Bool.not_true, if_false, hget]
    exact mapGet_mapSet_self t deskId _
  · intro k hk
    simp only [refreshDeskSession, hval, Bool.not_true, if_false, hget]
    exact mapGet_mapSet_ne t deskId k _ hk

/-- Witness for C3 on a concrete two-session table. -/
theorem refreshDeskSession_frame_witness :
    mapGet (refreshDeskSession
        [("d", ⟨"d", "sec", 0, 10⟩), ("e", ⟨"e", "x", 1, 9⟩)] 5 "d" "sec").2
      "d" = some ⟨"d", "sec", 0, 5 + SESSION_EXPIRY⟩ ∧
    mapGet (refreshDeskSession
        [("d", ⟨"d", "sec", 0, 10⟩), ("e", ⟨"e", "x", 1, 9⟩)] 5 "d" "sec").2
      "e" = some ⟨"e", "x", 1, 9⟩ := by
  have h := refreshDeskSession_frame
    [("d", ⟨"d", "sec", 0, 10⟩), ("e", ⟨"e", "x", 1, 9⟩)] 5 "d" "sec"
    ⟨"d", "sec", 0, 10⟩ rfl (by decide) rfl
  exact ⟨h.1, (h.2 "e" (by decide)).trans rfl⟩

/-- C4: the `refresh-session` endpoint answers 200 with the new
`expiresIn` when validation succeeds, and 401 when it fails, in which case
the session table after the call is exactly the table validation left
behind (only lazy eviction, no refresh of `expiresAt`). -/
theorem refreshDeskSession_http (t : SessionTable) (now : Nat)
    (deskId signature : String) :
    ((validateDeskSession t now deskId signature).1 = true →
      (refreshDeskSession t now deskId signature).1.status = 200 ∧
      (refreshDeskSession t now deskId signature).1.expiresIn =
        some SESSION_EXPIRY) ∧
    ((validateDeskSession t now deskId signature).1 = false →
      (refreshDeskSession t now deskId signature).1.status = 401 ∧
      (refreshDeskSession t now deskId signature).1.expiresIn = none ∧
      (refreshDeskSession t now deskId signature).2 =
        (validateDeskSession t now deskId signature).2) := by
  constructor
  · intro h; simp [refreshDeskSession, h]
  · intro h; simp [refreshDeskSession, h]

/-- Witness for C4: a request against an empty table fails with 401 and
leaves the table empty; a valid request gets 200. -/
theorem refreshDeskSession_http_witness :
    ((refreshDeskSession [] 0 "d" "s").1.status = 401 ∧
      (refreshDeskSession [] 0 "d" "s").1.expiresIn = none ∧
      (refreshDeskSession [] 0 "d" "s").2 =
        (validateDeskSession [] 0 "d" "s").2) ∧
    ((refreshDeskSession [("d", ⟨"d", "sec", 0, 9⟩)] 5 "d" "sec").1.status =
        200 ∧
      (refreshDeskSession
          [("d", ⟨"d", "sec", 0, 9⟩)] 5 "d" "sec").1.expiresIn =
        some SESSION_EXPIRY) := by
  exact ⟨(refreshDeskSession_http [] 0 "d" "s").2 rfl,
    (refreshDeskSession_http [("d", ⟨"d", "sec", 0, 9⟩)] 5 "d" "sec").1
      (by decide)⟩

/-- C5: any two refresh requests that fail validation — for whatever
reason, absent deskId, expired session or signature mismatch — receive
the identical HTTP response (status 401, same generic body), so the
response does not reveal which part of the credential pair was wrong. -/
theorem refresh_failure_noninterference
    (t1 : SessionTable) (now1 : Nat) (id1 sig1 : String)
    (t2 : SessionTable) (now2 : Nat) (id2 sig2 : String)
    (h1 : (validateDeskSession t1 now1 id1 sig1).1 = false)
    (h2 : (validateDeskSession t2 now2 id2 sig2).1 = false) :
    (refreshDeskSession t1 now1 id1 sig1).1 =
      (refreshDeskSession t2 now2 id2 sig2).1 := by
  have e1 : (refreshDeskSession t1 now1 id1 sig1).1 =
      ⟨401, false, "Invalid or expired desk session", none⟩ := by
    simp [refreshDeskSession, h1]
  have e2 : (refreshDeskSession t2 now2 id2 sig2).1 =
      ⟨401, false, "Invalid or expired desk session", none⟩ := by
    simp [refreshDeskSession, h2]
  rw [e1, e2]

/-- Witness for C5: a failure for an absent deskId and a failure for a
signature mismatch produce the same response. -/
theorem refresh_failure_noninterference_witness :
    (refreshDeskSession [] 0 "a" "b").1 =
      (refreshDeskSession [("d", ⟨"d", "sec", 0, 100⟩)] 5 "d" "wrong").1 :=
  refresh_failure_noninterference [] 0 "a" "b"
    [("d", ⟨"d", "sec", 0, 100⟩)] 5 "d" "wrong" rfl (by decide)

/-- C6: `createDeskSession` on 16 random id bytes and 32 random secret
bytes answers 200 with a 32-hex-character deskId (128 bits), a
64-hex-character signature (256 bits) and the expiry interval, and stores
a record whose `createdAt` is the current time and whose `expiresAt` is
`createdAt` plus exactly 30 minutes. -/
theorem createDeskSession_spec (t : SessionTable)
    (idBytes sigBytes : List Nat) (now : Nat)
    (hidlen : idBytes.length = 16) (hsiglen : sigBytes.length = 32)
    (hid : ∀ b ∈ idBytes, b < 256) (hsig : ∀ b ∈ sigBytes, b < 256) :
    (createDeskSession t idBytes sigBytes now).1.status = 200 ∧
    (createDeskSession t idBytes sigBytes now).1.deskId.length = 32 ∧
    (createDeskSession t idBytes sigBytes now).1.signature.length = 64 ∧
    (∀ c ∈ (createDeskSession t idBytes sigBytes now).1.deskId.data,
      c ∈ hexChars) ∧
    (∀ c ∈ (createDeskSession t idBytes sigBytes now).1.signature.data,
      c ∈ hexChars) ∧
    (createDeskSession t idBytes sigBytes now).1.expiresIn =
      SESSION_EXPIRY ∧
    mapGet (createDeskSession t idBytes sigBytes now).2
        (createDeskSession t idBytes sigBytes now).1.deskId =
      some { deskId := (createDeskSession t idBytes sigBytes now).1.deskId
             signature := (createDeskSession t idBytes sigBytes now).1.signature
             createdAt := now
             expiresAt := now + 30 * 60 * 1000 } := by
  refine ⟨rfl, ?_, ?_, ?_, ?_, rfl, ?_⟩
  · show (String.mk (bytesToHex idBytes)).length = 32
    show (bytesToHex idBytes).length = 32
    rw [bytesToHex_length, hidlen]
  · show (String.mk (bytesToHex sigBytes)).length = 64
    show (bytesToHex sigBytes).length = 64
    rw [bytesToHex_length, hsiglen]
  · exact bytesToHex_mem_hexChars idBytes hid
  · exact bytesToHex_mem_hexChars sigBytes hsig
  · exact mapGet_mapSet_self t _ _

/-- Witness for C6 at concrete random bytes. -/
theorem createDeskSession_spec_witness :
    (createDeskSession [] (List.replicate 16 0) (List.replicate 32 255)
        7).1.deskId.length = 32 ∧
    (createDeskSession [] (List.replicate 16 0) (List.replicate 32 255)
        7).1.signature.length = 64 ∧
    mapGet (createDeskSession [] (List.replicate 16 0)
          (List.replicate 32 255) 7).2
        (createDeskSession [] (List.replicate 16 0) (List.replicate 32 255)
          7).1.deskId =
      some { deskId := (createDeskSession [] (List.replicate 16 0)
              (List.replicate 32 255) 7).1.deskId
             signature := (createDeskSession [] (List.replicate 16 0)
              (List.replicate 32 255) 7).1.signature
             createdAt := 7
             expiresAt := 7 + 30 * 60 * 1000 } := by
  have h := createDeskSession_spec [] (List.replicate 16 0)
    (List.replicate 32 255) 7 (by decide) (by decide)
    (by intro b hb; simp at hb; omega) (by intro b hb; simp at hb; omega)
  exact ⟨h.2.1, h.2.2.1, h.2.2.2.2.2.2⟩

/-- C7: one run of the background sweep keeps exactly the entries whose
`expiresAt` has not passed: an entry is in the swept table iff it was in
the table before and is not expired; in particular no expired entry
survives a sweep, and the sweep interval is 60 seconds. -/
theorem sweepSessions_spec (t : SessionTable) (now : Nat)
    (p : String × DeskSession) :
    (p ∈ sweepSessions t now ↔ p ∈ t ∧ ¬ p.2.expiresAt < now) ∧
    SWEEP_INTERVAL = 60 * 1000 := by
  refine ⟨?_, rfl⟩
  simp [sweepSessions, List.mem_filter]

/-- C8: the full handshake round trip: from `idle`, a valid scan is
forwarded once and moves to `awaiting-ack`; `ack-scan` moves to `paused`;
`resume` returns to `idle`, where a new valid scan is again accepted and
forwarded. -/
theorem handshake_roundtrip (pid pid2 : String) (h : pid ≠ "")
    (h2 : pid2 ≠ "") :
    (handshakeStep .idle (.scanParticipant pid)).state =
      .awaitingAck pid ∧
    (handshakeStep .idle (.scanParticipant pid)).toDesk =
      [.scanReceived pid] ∧
    (handshakeStep (.awaitingAck pid) .ackScan).state = .paused ∧
    (handshakeStep .paused .resume).state = .idle ∧
    (handshakeStep .idle (.scanParticipant pid2)).state =
      .awaitingAck pid2 ∧
    (handshakeStep .idle (.scanParticipant pid2)).toDesk =
      [.scanReceived pid2] := by
  simp [handshakeStep, h, h2]

/-- Witness for C8 with concrete participant ids. -/
theorem handshake_roundtrip_witness :
    (handshakeStep .idle (.scanParticipant "P1")).state =
      .awaitingAck "P1" ∧
    (handshakeStep .idle (.scanParticipant "P1")).toDesk =
      [.scanReceived "P1"] ∧
    (handshakeStep (.awaitingAck "P1") .ackScan).state = .paused ∧
    (handshakeStep .paused .resume).state = .idle ∧
    (handshakeStep .idle (.scanParticipant "P2")).state =
      .awaitingAck "P2" ∧
    (handshakeStep .idle (.scanParticipant "P2")).toDesk =
      [.scanReceived "P2"] :=
  handshake_roundtrip "P1" "P2" (by decide) (by decide)

/-- C9: the `scan-acknowledged` handler sets the paused ref and stops the
camera; from then on, any run of camera scan results emits no
`scan-participant` message and leaves the ref set, until the
`resume-scanning` handler clears the ref and restarts the camera. -/
theorem scanner_pause_blocks_camera_emits (st : ScannerState) (uid : String)
    (scans : List (Decoded × Nat)) :
    (handleScanAcknowledged st uid).pausedR = true ∧
    (handleScanAcknowledged st uid).cameraOn = false ∧
    (runScans (handleScanAcknowledged st uid) scans).2 = [] ∧
    (runScans (handleScanAcknowledged st uid) scans).1.pausedR = true ∧
    (handleResumeScanning
      (runScans (handleScanAcknowledged st uid) scans).1).pausedR = false ∧
    (handleResumeScanning
      (runScans (handleScanAcknowledged st uid) scans).1).cameraOn = true := by
  refine ⟨rfl, rfl, ?_, ?_, ?_, ?_⟩
  · exact (runScans_paused _ scans rfl).1
  · exact (runScans_paused _ scans rfl).2
  · simp [handleResumeScanning]
  · simp [handleResumeScanning]

/-- C10: the manual Send button emits exactly one `scan-participant`
message for any input with non-empty trim, whatever the values of the
paused ref, the connected ref, the debounce timestamp and the camera
flag — the three camera-path guards are absent from the manual path
(only the socket's existence is needed, through the optional call). -/
theorem manualSend_bypasses_guards (connectedV pausedV camV : Bool)
    (ts : Nat) (last : Option String) (input : String)
    (hne : jsTrim input ≠ "") :
    manualSend ⟨connectedV, pausedV, ts, camV, true, last⟩ input =
      [⟨jsTrim input⟩] := by
  simp [manualSend, hne]

/-- Witness for C10: a paused, disconnected scanner inside the debounce
window still emits on manual Send. -/
theorem manualSend_bypasses_guards_witness :
    manualSend ⟨false, true, 0, false, true, none⟩ " P9 " =
      [⟨"P9"⟩] := by
  have h := manualSend_bypasses_guards false true false 0 none " P9 "
    (by decide)
  simpa using h

end Infinitum
